import Mathlib

/-!
Verification development for the Agentic_Longterm_Memory repository.

Shallow embedding of:
* `src/utils/chatbot_agentic_v3.py` — `Chatbot.execute_function_call` and the
  `Chatbot.chat` turn loop (tool budget, chaining heuristic, fallback
  completion, persistence side effects);
* `src/utils/prepare_system_prompt.py` —
  `prepare_system_prompt_for_agentic_chatbot_v4`;
* `src/notion_mcp_server/notion_utils.py` — `NotionUtils.split_long_content`.

Modelling conventions: Python strings are Lean `String`s (`List Char` for the
chunk splitter); external effects (OpenAI completions, tool bodies, the SQL /
vector-DB managers) are oracles passed in as parameters, and the observable
side effects (LLM invocations, history appends, summary updates, tool
dispatches) are recorded in a `Turn` log.  Python float literals `0.7` / `0.8`
in threshold comparisons are modelled as the exact rationals 7/10 and 8/10.
-/

namespace AgenticMemory

/-! ### Small Python string primitives -/

/-- Python `str.lower()` restricted to ASCII (all strings the code compares
are ASCII). -/
def pyLower (s : String) : String := ⟨s.data.map Char.toLower⟩

/-- Boolean test that `p` is a prefix of `s` (character lists). -/
def prefixCheck : List Char → List Char → Bool
  | [], _ => true
  | _ :: _, [] => false
  | a :: as, b :: bs => a == b && prefixCheck as bs

/-- Boolean test that `p` occurs as a contiguous substring of `s`
(character lists); Python's `p in s`. -/
def infixCheck (p : List Char) : List Char → Bool
  | [] => prefixCheck p []
  | c :: tl => prefixCheck p (c :: tl) || infixCheck p tl

/-- Python's substring containment `p in s` on `String`s, as a `Prop`. -/
def occursIn (p s : String) : Prop := infixCheck p.data s.data = true

instance (p s : String) : Decidable (occursIn p s) := by
  unfold occursIn; infer_instance

/-- `any(keyword in s for keyword in pats)`. -/
def containsAny (s : String) (pats : List String) : Bool :=
  pats.any fun p => infixCheck p.data s.data

/-- Dictionary lookup `d.get(k, default)` for a Python dict modelled as an
association list in insertion order. -/
def pyGet (d : List (String × String)) (k default : String) : String :=
  match d.find? (fun kv => kv.1 == k) with
  | some kv => kv.2
  | none => default

/-! ### Tool dispatch (`Chatbot.execute_function_call`) -/

/-- Outcome string `"Function call successful."` used throughout the code. -/
def FC_SUCCESS : String := "Function call successful."

/-- Outcome string `"Function call failed."` used throughout the code. -/
def FC_FAILED : String := "Function call failed."

/-- Tool arguments: Python `dict[str, str-formatted value]` in insertion
order. -/
abbrev Args := List (String × String)

/-- Behaviour of the tool bodies reached from `execute_function_call`
(`search_vector_db`, the `notion_*` methods, ...); these perform network and
database I/O, so they are an oracle: `.ok (state, result)` models a normal
return of the `(state, result)` pair, `.error e` models the body raising an
exception with message `str(e)`. -/
abbrev ToolImpl := String → Args → Except String (String × String)

/-- The function names recognised by the `if/elif` chain of
`Chatbot.execute_function_call`, in source order. -/
def knownFunctions : List String :=
  ["search_vector_db", "add_user_info_to_database",
   "notion_search_content", "notion_read_page", "notion_create_page",
   "notion_list_pages", "notion_list_databases",
   "notion_add_structured_content", "notion_add_smart_content",
   "notion_workspace_analytics", "notion_content_analytics",
   "notion_activity_analytics",
   "notion_add_paragraph", "notion_add_heading", "notion_add_bullet_point",
   "notion_add_todo", "notion_add_multiple_todos",
   "notion_bulk_create_pages", "notion_bulk_list_pages",
   "notion_bulk_analyze_pages"]

/-- The chaining hint appended by the `notion_search_content` branch of
`execute_function_call`. -/
def searchHint : String :=
  "\n\n💡 NEXT STEP: If you need to add content to this page, use functions like notion_add_paragraph, notion_add_heading, notion_add_bullet_point, or notion_add_todo with the page title or ID found above."

/-- `Chatbot.execute_function_call(function_name, function_args)`.

The whole body is wrapped in `try/except Exception`, so a raise from a tool
body (`.error e`) is converted to
`("Function call failed.", f"Error executing {function_name}: {str(e)}")`,
and a name not matched by the `elif` chain returns
`("Function call failed.", f"Unknown function: {function_name}")`.
The `notion_search_content` branch appends `searchHint` to a successful
result when the `search_term` argument contains one of four keywords. -/
def execute_function_call (impl : ToolImpl) (function_name : String)
    (function_args : Args) : String × String :=
  if function_name ∈ knownFunctions then
    match impl function_name function_args with
    | .ok result =>
      if function_name == "notion_search_content" && result.1 == FC_SUCCESS &&
          containsAny (pyLower (pyGet function_args "search_term" ""))
            ["education", "notes", "project", "page"] then
        (result.1, result.2 ++ searchHint)
      else result
    | .error e =>
      (FC_FAILED, "Error executing " ++ function_name ++ ": " ++ e)
  else
    (FC_FAILED, "Unknown function: " ++ function_name)

/-! ### The chaining heuristic inside `Chatbot.chat`

The `if/elif` cascade at the top of the loop body that runs when the previous
function call succeeded: it picks a guidance string and decides whether
`chat_state` stays `"thinking"` (continuation forced) or becomes
`"finished"`. -/

/-- Keywords for the `notion_search_content` content-addition branch. -/
def kwSearchAdd : List String :=
  ["add content", "add to", "create content", "add paragraph", "add heading",
   "add bullet", "add todo", "add aws", "add structured", "create sections",
   "multiple", "several", "tasks", "items", "todo list"]

/-- Keywords for the `notion_search_content` read-and-add branch. -/
def kwSearchRead : List String :=
  ["read content", "read page", "read and add", "same type",
   "similar content", "copy content"]

/-- Keywords for the `notion_read_page` page-update branch. -/
def kwReadUpdate : List String := ["add to", "update", "modify", "append"]

/-- Keywords for the `notion_create_page` new-page-content branch. -/
def kwCreateContent : List String :=
  ["add content", "with sections", "with bullet", "with todo"]

/-- Patterns for the function-name-independent multi-step branch. -/
def kwMultiStep : List String :=
  ["read content from", "read page", "read and add", "same type of content",
   "similar content", "copy from"]

def guidanceContentAddition : String :=
  "\n\n🔄 CONTENT ADDITION TASK DETECTED: You found the page, now proceed to add the requested content using the appropriate notion_add_* functions."

def guidanceReadAndAdd : String :=
  "\n\n🔄 READ-AND-ADD TASK DETECTED: You found the target page, now continue with reading the source content and adding it to the target page."

def guidancePageUpdate : String :=
  "\n\n🔄 PAGE UPDATE TASK DETECTED: You read the page, now proceed to add or update the content as requested."

def guidanceNewPageContent : String :=
  "\n\n🔄 NEW PAGE CONTENT TASK DETECTED: You created the page, now add the requested content to it."

def guidanceMultiStep : String :=
  "\n\n🔄 MULTI-STEP OPERATION DETECTED: Continue with the full workflow - read source content, then add to target page."

/-- The chaining cascade: given the previously executed `function_name` and
the user's message, returns `some guidance` when a continuation pattern
matches (`chat_state` stays `"thinking"`, `is_chaining_task = True`) and
`none` when no pattern matches (the `else` branch sets
`chat_state = "finished"`). -/
def chainingGuidance (function_name user_message : String) : Option String :=
  let lmsg := pyLower user_message
  if function_name == "notion_search_content" && containsAny lmsg kwSearchAdd then
    some guidanceContentAddition
  else if function_name == "notion_search_content" && containsAny lmsg kwSearchRead then
    some guidanceReadAndAdd
  else if function_name == "notion_read_page" && containsAny lmsg kwReadUpdate then
    some guidancePageUpdate
  else if function_name == "notion_create_page" && containsAny lmsg kwCreateContent then
    some guidanceNewPageContent
  else if containsAny lmsg kwMultiStep then
    some guidanceMultiStep
  else
    none

/-! ### `prepare_system_prompt_for_agentic_chatbot_v4`

The triple-quoted template from `src/utils/prepare_system_prompt.py`, split at
its four `str.format` placeholders (`{user_info}`, `{chat_summary}`,
`{chat_history}`, `{function_call_result_section}`), whitespace preserved
exactly. -/

/-- `prepare_system_prompt_for_agentic_chatbot_v4` — `str.format` of the
constant triple-quoted template from `src/utils/prepare_system_prompt.py`
with the four inputs spliced in at their placeholders (whitespace preserved
exactly).  The template text is written as a right-associated chain of short
literal chunks — string append is associative, and short chunks keep kernel
evaluation of substring scans over the assembled prompt shallow. -/
def prepare_system_prompt_for_agentic_chatbot_v4
    (user_info chat_summary chat_history function_call_result_section : String) :
    String :=
  "## You are a professional assistant with access to the user\x27s Notion workspace and personal information.\n\n    "
    ++ (user_info
    ++ ("\n\n    ## Here is a summary of the previous conversation history:\n\n    "
    ++ (chat_summary
    ++ ("\n\n    ## Here is the previous conversation between you and the user:\n\n    "
    ++ (chat_history
    ++ ("\n\n    ## You have access to multiple function categories:\n\n    ### 📊 USER MANAGEMENT FUNCTIONS:\n    - **search_vect"
    ++ ("or_db**: Search through the user\x27s conversation history and stored knowledge\n    - **add_user_info_to_database**: Up"
    ++ ("date user\x27s personal information (name, last_name, age, gender, location, occupation, interests)\n\n    ### 🔍 NOTION "
    ++ ("CORE FUNCTIONS:\n    - **notion_search_content**: Search for pages and databases in Notion workspace\n    - **notion_rea"
    ++ ("d_page**: Read complete content from a specific Notion page (accepts page ID or title)\n    - **notion_create_page**: Cr"
    ++ ("eate new pages with title and content\n    - **notion_list_pages**: List all pages in the workspace (with limit)\n    - "
    ++ ("**notion_list_databases**: List all databases in the workspace\n\n    ### 📈 NOTION ANALYTICS FUNCTIONS:\n    - **notion_"
    ++ ("workspace_analytics**: Get comprehensive workspace statistics and insights\n    - **notion_content_analytics**: Analyze "
    ++ ("content structure and patterns\n    - **notion_activity_analytics**: Analyze recent activity and usage patterns\n\n    #"
    ++ ("## ✏️ NOTION UPDATE FUNCTIONS:\n    - **notion_add_paragraph**: Add paragraph text to any page (accepts page ID or title"
    ++ (", auto-splits long content)\n    - **notion_add_heading**: Add headings (levels 1-3) to any page (accepts page ID or tit"
    ++ ("le, auto-truncates if too long)\n    - **notion_add_bullet_point**: Add bullet point items to any page (accepts page ID "
    ++ ("or title, auto-splits long content)\n    - **notion_add_todo**: Add to-do items (checked/unchecked) to any page (accepts"
    ++ (" page ID or title, auto-splits long content)\n    - **notion_add_multiple_todos**: Add multiple to-do items at once to a"
    ++ ("ny page (accepts list of todo items)\n    - **notion_add_structured_content**: Add structured content with multiple sect"
    ++ ("ions (requires user-provided sections or content)\n    - **notion_add_smart_content**: Intelligently add content based o"
    ++ ("n user\x27s natural language request (uses user\x27s actual content)\n\n    ### 🔄 NOTION BULK FUNCTIONS:\n    - **notion"
    ++ ("_bulk_create_pages**: Create multiple pages at once\n    - **notion_bulk_list_pages**: List all pages with detailed info"
    ++ ("rmation\n    - **notion_bulk_analyze_pages**: Analyze multiple pages based on search criteria\n\n    ## FUNCTION USAGE G"
    ++ ("UIDELINES:\n\n    ### When to use Notion functions:\n    - User asks about their Notion workspace, pages, or content\n  "
    ++ ("  - User wants to search, read, create, or modify Notion content\n    - User requests analytics or insights about their "
    ++ ("workspace\n    - User wants to add content to existing pages\n    - User needs bulk operations on multiple pages\n\n    "
    ++ ("### When to use User Management functions:\n    - User provides personal information that should be stored\n    - You ne"
    ++ ("ed to search previous conversations for context\n    - User asks about their stored information\n\n    ### Function Sele"
    ++ ("ction Strategy:\n    1. **Search First**: Use `notion_search_content` to find relevant pages\n    2. **Read for Details*"
    ++ ("*: Use `notion_read_page` to get specific content\n    3. **Create When Needed**: Use `notion_create_page` for new conte"
    ++ ("nt\n    4. **Update Existing**: Use add_paragraph/heading/bullet/todo for updates\n    5. **Analyze for Insights**: Use "
    ++ ("analytics functions for understanding patterns\n    6. **Bulk for Efficiency**: Use bulk functions for multiple operatio"
    ++ ("ns\n\n    ### Page Identification:\n    - **Page IDs**: Use exact UUID format (e.g., \"123e4567-e89b-12d3-a456-426614174"
    ++ ("000\")\n    - **Page Titles**: Use readable page names (e.g., \"Meeting Notes\", \"Project Ideas\")\n    - **Automatic D"
    ++ ("etection**: Functions will automatically detect if you\x27re using ID or title\n\n    ## FUNCTION CHAINING FOR CONTENT T"
    ++ ("ASKS:\n    When users request content addition (like \"add content to my page\"):\n    1. **First**: Use `notion_search_"
    ++ ("content` to find the target page\n    2. **Then**: Immediately use appropriate content functions (`notion_add_paragraph`"
    ++ (", `notion_add_heading`, etc.)\n    3. **Complete the task**: Don\x27t stop after just searching - complete the full user"
    ++ (" request\n    4. **Multi-step tasks**: For complex content, use multiple add functions in sequence\n\n    ### Content Ad"
    ++ ("dition Workflow:\n    - User says \"add content to [page]\" → Use `notion_add_smart_content` to parse and add their actu"
    ++ ("al content\n    - User says \"add [specific content] to [page]\" → Use `notion_add_smart_content` (extracts their conten"
    ++ ("t)\n    - User says \"add multiple todos/tasks\" → Use `notion_add_multiple_todos` or `notion_add_smart_content` (auto-d"
    ++ ("etects)\n    - User says \"add AWS learning tasks\" → Ask for specific tasks, then use `notion_add_multiple_todos` or `n"
    ++ ("otion_add_smart_content`\n    - User says \"create sections on [page]\" → Use `notion_add_structured_content` with user-"
    ++ ("provided sections\n    - User says \"add bullet points to [page]\" → Use `notion_add_bullet_point` with their content\n "
    ++ ("   - User says \"add a paragraph [content]\" → Use `notion_add_paragraph` with their content\n    - **All functions use "
    ++ ("user\x27s actual content** - no templates or hard-coded content\n    - **Multiple items detection**: Look for words like"
    ++ (" \"multiple\", \"several\", \"tasks\", \"items\", \"list of\", \"todo list\"\n    - Always complete the full requested a"
    ++ ("ction, not just the first step\n\n    ### Complex Multi-Step Operations:\n    - **\"Read from [page A] and add to [page "
    ++ ("B]\"** → 1) Read page A content, 2) Add similar content to page B\n    - **\"Copy content from [source] to [target]\"** "
    ++ ("→ 1) Read source page, 2) Add content to target page\n    - **\"Add same type of content\"** → 1) Read source for refere"
    ++ ("nce, 2) Create similar content on target\n    - **\"Read and add similar content\"** → Complete full workflow, don\x27t "
    ++ ("stop after just reading\n    - **Never stop at search/read** - always complete the full requested operation\n\n    ### S"
    ++ ("mart Content Function Details:\n    - `notion_add_smart_content` parses user requests like \"add this content to my page"
    ++ ("\"\n    - It extracts the actual content from the request (removes command words like \"add\", \"create\", etc.)\n    - "
    ++ ("For long content (>500 chars), it intelligently splits into multiple paragraphs\n    - For short content, it adds as a s"
    ++ ("ingle paragraph\n    - **Always uses the user\x27s actual words and content** - no substitution or templates\n\n    ## I"
    ++ ("MPORTANT BEHAVIOR RULES:\n    - You are the only agent talking to the user, so you are responsible for both conversation"
    ++ (" and function calling\n    - If you call a function, the result will appear below\n    - Don\x27t call the same function"
    ++ (" repeatedly unless the user specifically requests it\n    - Always provide helpful context about what you found or accom"
    ++ ("plished\n    - For Notion operations, explain what you\x27re doing and why\n    - If a Notion function fails, suggest al"
    ++ ("ternatives or troubleshooting steps\n    - **CRITICAL**: For multi-step operations (like \"read and add\"), complete the"
    ++ (" ENTIRE workflow, not just the first step\n    - **Never stop at search/read** - always continue to complete the user\x27"
    ++ ("s full request\n\n    ## AUTOMATIC CONTENT HANDLING:\n    - **Long Content**: Content longer than 2000 characters is aut"
    ++ ("omatically split into multiple blocks\n    - **Headings**: Long headings are truncated with \"...\" to maintain readabil"
    ++ ("ity\n    - **Smart Splitting**: Content is split at sentence endings or word boundaries when possible\n    - **Transpare"
    ++ ("nt Process**: Users are informed when content is split or truncated\n\n    ## USER INFORMATION UPDATE KEYS:\n    - name:"
    ++ (" str\n    - last_name: str  \n    - age: int\n    - gender: str\n    - location: str\n    - occupation: str\n    - inter"
    ++ ("ests: list[str]\n\n    "
    ++ (function_call_result_section
    ++ "\n    ")))))))))))))))))))))))))))))))))))))))))))))))))))))))))))))))))))))))

/-! ### The `Chatbot.chat` turn loop

`chat(user_message)` runs `while chat_state != "finished"` and only ever
leaves via `return`.  Each iteration (re)builds
`function_call_result_section`, assembles the system prompt, performs one
OpenAI completion, and either returns a text reply, runs the no-tools
fallback completion, dispatches one tool call, or returns a warning/error
string.  The completions are an oracle: a list of `LLMEvent`s consumed one
per API call (the fallback call consumes its own event). -/

/-- One OpenAI chat-completion outcome, as observed by `chat`:
`content` — `message.content` is truthy (non-empty text);
`functionCall` — no content, `message.function_call` present, with the
already-`json.loads`-parsed arguments;
`neither` — neither content nor function call (the warning branch);
`raiseErr` — the API call (or argument parsing) raised an exception with
message `msg`, landing in the `except` clause. -/
inductive LLMEvent where
  | content (text : String)
  | functionCall (name : String) (args : Args)
  | neither
  | raiseErr (msg : String)
deriving DecidableEq

/-- One LLM invocation performed during the turn: whether the request passed
the tool schemas (`functions=self.agent_functions`), and the system prompt it
was given. -/
structure LLMCall where
  withTools : Bool
  prompt : String
deriving DecidableEq

/-- One executed tool dispatch: name, arguments, the `(state, result)` pair
returned by `execute_function_call`, and the value of `function_call_count`
at the moment the dispatch ran (i.e. after its increment). -/
structure DispatchEntry where
  name : String
  args : Args
  state : String
  result : String
  countAfter : Nat
deriving DecidableEq

/-- The value `chat` returns: `reply (some t)` — an assistant text (normal or
fallback path); `reply none` — the fallback completion returned no content
(Python returns `None`); `warning` — the "No valid assistant response"
string; `error msg` — the `except` branch returned
`f"Error: {msg}\n{traceback}"`; `outOfEvents` — the oracle ran out of events
(an artifact of the embedding: the Python process would simply block on the
next API call). -/
inductive ChatResult where
  | reply (text : Option String)
  | warning
  | error (msg : String)
  | outOfEvents
deriving DecidableEq

/-- Observable record of one `chat(user_message)` turn. -/
structure Turn where
  result : ChatResult
  calls : List LLMCall
  history : List (String × Option String)
  summaryUpdates : Nat
  dispatches : List DispatchEntry
  finalCount : Nat
deriving DecidableEq

/-- The configuration and per-turn context read by `chat`:
`cfg.max_function_calls` plus the three context strings fetched at the top of
the turn (`self.user_manager.user_info`,
`self.chat_history_manager.get_latest_summary()`,
`self.chat_history_manager.chat_history`). -/
structure Cfg where
  max_function_calls : Nat
  user_info : String
  previous_summary : String
  chat_history : String

/-- The loop-carried local variables of `chat`. -/
structure LoopState where
  fcState : Option String
  fname : String
  fargs : Args
  fresult : String
  sectionStr : String
  finished : Bool
  count : Nat

/-- Local variable state at loop entry: `function_call_result_section = ""`,
`function_call_state = None`, `chat_state = "thinking"`,
`function_call_count = 0` (the `function_name`/`function_args`/
`function_call_result` locals are not yet assigned; dummies here, and the
code never reads them while `fcState = none`). -/
def initialState : LoopState :=
  { fcState := none, fname := "", fargs := [], fresult := "",
    sectionStr := "", finished := false, count := 0 }

/-- `"".join(f"  - {k}: {v}\n" for k, v in function_args.items())`. -/
def argsLines : Args → String
  | [] => ""
  | kv :: tl => "  - " ++ kv.1 ++ ": " ++ kv.2 ++ "\n" ++ argsLines tl

/-- The `function_call_result_section` built after a successful call
(`function_call_state == "Function call successful."`). -/
def successSection (function_name : String) (function_args : Args)
    (function_call_result chaining_guidance : String) : String :=
  "## Function Call Executed\n\n"
    ++ "- The assistant just called the function `" ++ function_name
    ++ "` in response to the user\x27s most recent message.\n"
    ++ "- Arguments provided:\n" ++ argsLines function_args
    ++ "- Outcome: ✅ " ++ FC_SUCCESS ++ "\n\n"
    ++ "Please proceed with the conversation using the new context.\n\n"
    ++ function_call_result ++ chaining_guidance

/-- The `function_call_result_section` built after a failed call
(`function_call_state == "Function call failed."`). -/
def failureSection (function_name : String) (function_args : Args)
    (function_call_result : String) : String :=
  "## Function Call Attempted\n\n"
    ++ "- The assistant attempted to call `" ++ function_name
    ++ "` with the following arguments:\n" ++ argsLines function_args
    ++ "- Outcome: ❌ " ++ FC_FAILED ++ " - " ++ function_call_result ++ "\n\n"
    ++ "Please assist the user based on this result."

/-- The overwrite applied when `function_call_count >= max_function_calls`
(the f-triple-quoted literal, indentation included). -/
def limitSection : String :=
  "  # Function Call Limit Reached.\n\n                    Please conclude the conversation with the user based on the available information."

/-- The first stage of a loop iteration: rebuild
`function_call_result_section` from the previous call's outcome and apply the
chaining cascade to `chat_state`.  Returns the new section and the new value
of `chat_state == "finished"`. -/
def stepSection (s : LoopState) (user_message : String) : String × Bool :=
  match s.fcState with
  | some st =>
    if st = FC_SUCCESS then
      match chainingGuidance s.fname user_message with
      | some g => (successSection s.fname s.fargs s.fresult g, false)
      | none => (successSection s.fname s.fargs s.fresult "", true)
    else if st = FC_FAILED then
      (failureSection s.fname s.fargs s.fresult, s.finished)
    else (s.sectionStr, s.finished)
  | none => (s.sectionStr, s.finished)

/-- `function_call_result_section` as passed to the prompt assembler: the
rebuilt section, overwritten by `limitSection` when the budget is spent. -/
def sectionOf (cfg : Cfg) (s : LoopState) (user_message : String) : String :=
  if cfg.max_function_calls ≤ s.count then limitSection
  else (stepSection s user_message).1

/-- The system prompt assembled for the iteration's LLM call(s). -/
def promptOf (cfg : Cfg) (s : LoopState) (user_message : String) : String :=
  prepare_system_prompt_for_agentic_chatbot_v4 cfg.user_info
    cfg.previous_summary cfg.chat_history (sectionOf cfg s user_message)

/-- The loop state carried into the next iteration after dispatching a tool
call that returned `r`. -/
def nextState (cfg : Cfg) (s : LoopState) (user_message name : String)
    (args : Args) (r : String × String) : LoopState :=
  { fcState := some r.1, fname := name, fargs := args, fresult := r.2,
    sectionStr := sectionOf cfg s user_message,
    finished := (stepSection s user_message).2, count := s.count + 1 }

/-- The fallback branch: a second completion with the same `system_prompt`
and `user_message` but no `functions` schemas; whatever
`choices[0].message.content` holds (possibly `None`) is appended to history
and returned.  No summary update happens on this path. -/
def fallbackReturn (cfg : Cfg) (s : LoopState) (user_message : String)
    (rest : List LLMEvent) : Turn :=
  let p := promptOf cfg s user_message
  match rest with
  | [] =>
    { result := .outOfEvents, calls := [⟨true, p⟩], history := [],
      summaryUpdates := 0, dispatches := [], finalCount := s.count }
  | .content t :: _ =>
    { result := .reply (some t), calls := [⟨true, p⟩, ⟨false, p⟩],
      history := [(user_message, some t)], summaryUpdates := 0,
      dispatches := [], finalCount := s.count }
  | .raiseErr m :: _ =>
    { result := .error m, calls := [⟨true, p⟩, ⟨false, p⟩], history := [],
      summaryUpdates := 0, dispatches := [], finalCount := s.count }
  | _ :: _ =>
    { result := .reply none, calls := [⟨true, p⟩, ⟨false, p⟩],
      history := [(user_message, none)], summaryUpdates := 0,
      dispatches := [], finalCount := s.count }

/-- The `while chat_state != "finished"` loop of `Chatbot.chat`, one
constructor case per completion outcome.

* `content t`: append `(user_message, t)` to history, run
  `update_chat_summary`, return `t`.
* `functionCall`: if `function_call_count >= max_function_calls or
  chat_state == "finished"`, run the fallback completion and return;
  otherwise increment the counter, run `execute_function_call`, and loop.
* `neither`: return the warning string.
* `raiseErr`: the `except` clause returns the error string; nothing is
  persisted. -/
def chatLoop (cfg : Cfg) (impl : ToolImpl) (user_message : String) :
    LoopState → List LLMEvent → Turn
  | s, [] =>
    { result := .outOfEvents, calls := [], history := [], summaryUpdates := 0,
      dispatches := [], finalCount := s.count }
  | s, .content t :: _ =>
    { result := .reply (some t), calls := [⟨true, promptOf cfg s user_message⟩],
      history := [(user_message, some t)], summaryUpdates := 1,
      dispatches := [], finalCount := s.count }
  | s, .neither :: _ =>
    { result := .warning, calls := [⟨true, promptOf cfg s user_message⟩],
      history := [], summaryUpdates := 0, dispatches := [],
      finalCount := s.count }
  | s, .raiseErr m :: _ =>
    { result := .error m, calls := [⟨true, promptOf cfg s user_message⟩],
      history := [], summaryUpdates := 0, dispatches := [],
      finalCount := s.count }
  | s, .functionCall name args :: rest =>
    if cfg.max_function_calls ≤ s.count ∨ (stepSection s user_message).2 = true then
      fallbackReturn cfg s user_message rest
    else
      let r := execute_function_call impl name args
      let t := chatLoop cfg impl user_message
        (nextState cfg s user_message name args r) rest
      { result := t.result,
        calls := ⟨true, promptOf cfg s user_message⟩ :: t.calls,
        history := t.history, summaryUpdates := t.summaryUpdates,
        dispatches := ⟨name, args, r.1, r.2, s.count + 1⟩ :: t.dispatches,
        finalCount := t.finalCount }

/-- One whole `chat(user_message)` turn from the initial local state. -/
def chat (cfg : Cfg) (impl : ToolImpl) (user_message : String)
    (events : List LLMEvent) : Turn :=
  chatLoop cfg impl user_message initialState events

/-! ### `NotionUtils.split_long_content`

Content is a `List Char`; `str.strip()`, `str.rfind` and slicing are modelled
directly.  The `while remaining_content:` loop is written with explicit fuel
(`content.length` steps suffice, proved below); `none` marks fuel exhaustion,
an artifact of the embedding only. -/

/-- Python `str.strip()` whitespace set (ASCII). -/
def pySpace (c : Char) : Bool :=
  c == ' ' || c == '\t' || c == '\n' || c == '\r' || c == '\x0b' || c == '\x0c'

/-- Python `str.strip()`. -/
def pyStrip (s : List Char) : List Char :=
  ((s.dropWhile pySpace).reverse.dropWhile pySpace).reverse

/-- Is `p` present starting at index `i` of `s` (the occurrence must fit)? -/
def matchAt (s p : List Char) (i : Nat) : Bool :=
  prefixCheck p (s.drop i)

/-- Python `s.rfind(p)` for non-empty `p`: the largest start index of an
occurrence of `p` in `s`, or `-1` if there is none. -/
def rfind (s p : List Char) : Int :=
  (List.range s.length).foldl (fun acc i => if matchAt s p i then (i : Int) else acc) (-1)

/-- One iteration of the splitting loop for `len(remaining) > max_length`:
returns `(appended chunk, new remaining)`.  The Python float comparisons
`last_sentence > max_length * 0.7` and `last_space > max_length * 0.8` are
modelled as the exact rational comparisons `10*x > 7*max` and `10*x > 8*max`
(the three claims proved below hold on every branch, so the float rounding of
`0.7`/`0.8` cannot affect them). -/
def splitStep (maxLen : Nat) (rem : List Char) : List Char × List Char :=
  let chunk := rem.take maxLen
  let lastSentence :=
    max (max (max (rfind chunk ['.', ' ']) (rfind chunk ['!', ' ']))
          (rfind chunk ['?', ' ']))
      (rfind chunk ['\n'])
  if 10 * lastSentence > 7 * (maxLen : Int) then
    (pyStrip (rem.take (lastSentence.toNat + 1)),
     pyStrip (rem.drop (lastSentence.toNat + 1)))
  else
    let lastSpace := rfind chunk [' ']
    if 10 * lastSpace > 8 * (maxLen : Int) then
      (pyStrip (rem.take lastSpace.toNat), pyStrip (rem.drop lastSpace.toNat))
    else
      (pyStrip (rem.take maxLen), rem.drop maxLen)

/-- The `while remaining_content:` loop, collecting the appended chunks. -/
def splitLoop (maxLen : Nat) : Nat → List Char → Option (List (List Char))
  | _, [] => some []
  | 0, _ :: _ => none
  | fuel + 1, c :: cs =>
    if (c :: cs).length ≤ maxLen then some [pyStrip (c :: cs)]
    else
      match splitLoop maxLen fuel (splitStep maxLen (c :: cs)).2 with
      | some rest => some ((splitStep maxLen (c :: cs)).1 :: rest)
      | none => none

/-- `NotionUtils.split_long_content(content, max_length)`: the short-content
early return, then the loop, then the final
`[chunk for chunk in chunks if chunk]` filter. -/
def split_long_content (content : List Char) (maxLen : Nat) :
    Option (List (List Char)) :=
  if content.length ≤ maxLen then some [content]
  else (splitLoop maxLen content.length content).map
    (List.filter fun c => !c.isEmpty)

/-! ### Basic lemmas about the turn loop -/

lemma fallbackReturn_dispatches (cfg : Cfg) (s : LoopState) (msg : String)
    (rest : List LLMEvent) : (fallbackReturn cfg s msg rest).dispatches = [] := by
  unfold fallbackReturn
  cases rest with
  | nil => rfl
  | cons fe tl => cases fe <;> rfl

lemma fallbackReturn_finalCount (cfg : Cfg) (s : LoopState) (msg : String)
    (rest : List LLMEvent) : (fallbackReturn cfg s msg rest).finalCount = s.count := by
  unfold fallbackReturn
  cases rest with
  | nil => rfl
  | cons fe tl => cases fe <;> rfl

lemma fallbackReturn_summaryUpdates (cfg : Cfg) (s : LoopState) (msg : String)
    (rest : List LLMEvent) : (fallbackReturn cfg s msg rest).summaryUpdates = 0 := by
  unfold fallbackReturn
  cases rest with
  | nil => rfl
  | cons fe tl => cases fe <;> rfl

lemma nextState_count (cfg : Cfg) (s : LoopState) (msg name : String)
    (args : Args) (r : String × String) :
    (nextState cfg s msg name args r).count = s.count + 1 := rfl

/-- Invariant behind claim C1: starting from any loop state within budget,
the final counter and the counter at every executed dispatch stay within
`max_function_calls`. -/
lemma chatLoop_count_le (cfg : Cfg) (impl : ToolImpl) (msg : String) :
    ∀ (events : List LLMEvent) (s : LoopState),
      s.count ≤ cfg.max_function_calls →
      (chatLoop cfg impl msg s events).finalCount ≤ cfg.max_function_calls ∧
      ∀ d ∈ (chatLoop cfg impl msg s events).dispatches,
        d.countAfter ≤ cfg.max_function_calls := by
  intro events
  induction events with
  | nil => intro s h; exact ⟨h, by simp [chatLoop]⟩
  | cons e rest ih =>
    intro s h
    cases e with
    | content t => exact ⟨h, by simp [chatLoop]⟩
    | neither => exact ⟨h, by simp [chatLoop]⟩
    | raiseErr m => exact ⟨h, by simp [chatLoop]⟩
    | functionCall name args =>
      by_cases hc : cfg.max_function_calls ≤ s.count ∨ (stepSection s msg).2 = true
      · simp only [chatLoop, if_pos hc]
        refine ⟨?_, ?_⟩
        · rw [fallbackReturn_finalCount]; exact h
        · rw [fallbackReturn_dispatches]; intro d hd; cases hd
      · simp only [chatLoop, if_neg hc]
        push_neg at hc
        have hcount : s.count + 1 ≤ cfg.max_function_calls := hc.1
        obtain ⟨ih1, ih2⟩ :=
          ih (nextState cfg s msg name args (execute_function_call impl name args))
            (by rw [nextState_count]; exact hcount)
        refine ⟨ih1, ?_⟩
        intro d hd
        rcases List.mem_cons.mp hd with hd | hd
        · subst hd; exact hcount
        · exact ih2 d hd

/-- Claim C1: in every `chat(user_message)` turn the tool-call counter is at
most `cfg.max_function_calls` at all times — the counter recorded at every
executed dispatch and the final counter never exceed the limit, so once the
counter equals the limit no further tool dispatch is executed (a further tool
request is routed to the fallback completion instead). -/
theorem chat_tool_budget_invariant (cfg : Cfg) (impl : ToolImpl)
    (msg : String) (events : List LLMEvent) :
    (chat cfg impl msg events).finalCount ≤ cfg.max_function_calls ∧
    ((chat cfg impl msg events).dispatches.all
      fun d => decide (d.countAfter ≤ cfg.max_function_calls)) = true := by
  obtain ⟨h1, h2⟩ := chatLoop_count_le cfg impl msg events initialState
    (Nat.zero_le _)
  refine ⟨h1, List.all_eq_true.mpr ?_⟩
  intro d hd
  exact decide_eq_true (h2 d hd)

/-- Invariant behind claim C7: whenever the turn's result is the `except`
branch's error string, nothing was persisted — no history append and no
summary update. -/
lemma chatLoop_error_not_persisted (cfg : Cfg) (impl : ToolImpl)
    (msg : String) :
    ∀ (events : List LLMEvent) (s : LoopState) (m : String),
      (chatLoop cfg impl msg s events).result = .error m →
      (chatLoop cfg impl msg s events).history = [] ∧
      (chatLoop cfg impl msg s events).summaryUpdates = 0 := by
  intro events
  induction events with
  | nil => intro s m h; simp [chatLoop] at h
  | cons e rest ih =>
    intro s m h
    cases e with
    | content t => simp [chatLoop] at h
    | neither => simp [chatLoop] at h
    | raiseErr m' => exact ⟨rfl, rfl⟩
    | functionCall name args =>
      by_cases hc : cfg.max_function_calls ≤ s.count ∨ (stepSection s msg).2 = true
      · simp only [chatLoop, if_pos hc] at h ⊢
        unfold fallbackReturn at h ⊢
        cases rest with
        | nil => simp at h
        | cons fe tl => cases fe <;> simp_all
      · simp only [chatLoop, if_neg hc] at h ⊢
        exact ih _ m h

/-- Claim C7: if the LLM invocation itself raises (network/timeout/parse
failure, including the fallback call), `chat` returns an error result and the
turn is not persisted: no `(user_message, assistant_response)` pair is added
to the chat history and no summary update occurs. -/
theorem chat_llm_error_not_persisted (cfg : Cfg) (impl : ToolImpl)
    (msg : String) (events : List LLMEvent) (m : String)
    (h : (chat cfg impl msg events).result = .error m) :
    (chat cfg impl msg events).history = [] ∧
    (chat cfg impl msg events).summaryUpdates = 0 :=
  chatLoop_error_not_persisted cfg impl msg events initialState m h

/-! ### Substring lemmas for `occursIn` -/

lemma prefixCheck_self_append (p b : List Char) :
    prefixCheck p (p ++ b) = true := by
  induction p with
  | nil => rfl
  | cons a as ih => simp [prefixCheck, ih]

lemma prefixCheck_append_right (p s t : List Char)
    (h : prefixCheck p s = true) : prefixCheck p (s ++ t) = true := by
  induction p generalizing s with
  | nil => rfl
  | cons a as ih =>
    cases s with
    | nil => simp [prefixCheck] at h
    | cons b bs =>
      simp only [prefixCheck, Bool.and_eq_true] at h
      simp [prefixCheck, h.1, ih bs h.2]

lemma infixCheck_self_append (p b : List Char) :
    infixCheck p (p ++ b) = true := by
  cases p with
  | nil =>
    cases b with
    | nil => rfl
    | cons c cs => simp [infixCheck, prefixCheck]
  | cons a as =>
    simp only [infixCheck, Bool.or_eq_true]
    exact Or.inl (prefixCheck_self_append (a :: as) b)

lemma infixCheck_append_left (p a s : List Char)
    (h : infixCheck p s = true) : infixCheck p (a ++ s) = true := by
  induction a with
  | nil => exact h
  | cons c cs ih => simp [infixCheck, ih]

lemma infixCheck_append_right (p s t : List Char)
    (h : infixCheck p s = true) : infixCheck p (s ++ t) = true := by
  induction s with
  | nil =>
    cases p with
    | nil => cases t with
      | nil => rfl
      | cons c cs => simp [infixCheck, prefixCheck]
    | cons a as => simp [infixCheck, prefixCheck] at h
  | cons c cs ih =>
    simp only [infixCheck, Bool.or_eq_true] at h
    rcases h with h | h
    · simp only [List.cons_append, infixCheck, Bool.or_eq_true]
      exact Or.inl (prefixCheck_append_right p (c :: cs) t h)
    · simp only [List.cons_append, infixCheck, Bool.or_eq_true]
      exact Or.inr (ih h)

lemma occursIn_refl (p : String) : occursIn p p := by
  have := infixCheck_self_append p.data []
  simpa [occursIn] using this

lemma occursIn_append_right (t p s : String) (h : occursIn p s) :
    occursIn p (t ++ s) := by
  unfold occursIn at h ⊢
  rw [String.data_append]
  exact infixCheck_append_left p.data t.data s.data h

lemma occursIn_append_left (t p s : String) (h : occursIn p s) :
    occursIn p (s ++ t) := by
  unfold occursIn at h ⊢
  rw [String.data_append]
  exact infixCheck_append_right p.data s.data t.data h

/-! ### Claim theorems C3, C9, C4 -/

/-- Claim C3: `execute_function_call` is total (a Lean function) and fails
closed: a function name outside the registered `elif` chain yields the
failure state with a reason naming the unknown function (without invoking any
tool), and a tool body that raises is converted by the surrounding
`try/except` to the failure state with an `Error executing ...` message. -/
theorem dispatch_fails_closed (impl : ToolImpl) (name : String) (args : Args) :
    (name ∉ knownFunctions →
      execute_function_call impl name args =
        (FC_FAILED, "Unknown function: " ++ name)) ∧
    (∀ e, name ∈ knownFunctions → impl name args = .error e →
      execute_function_call impl name args =
        (FC_FAILED, "Error executing " ++ name ++ ": " ++ e)) := by
  constructor
  · intro h
    unfold execute_function_call
    rw [if_neg h]
  · intro e hmem himpl
    unfold execute_function_call
    rw [if_pos hmem, himpl]

/-- Witness for C3 at concrete inputs: an unregistered name, and a registered
name whose tool body raises. -/
theorem dispatch_fails_closed_witness :
    execute_function_call (fun _ _ => .error "boom") "bogus" [] =
      (FC_FAILED, "Unknown function: bogus") ∧
    execute_function_call (fun _ _ => .error "boom") "notion_read_page" [] =
      (FC_FAILED, "Error executing notion_read_page: boom") :=
  ⟨(dispatch_fails_closed (fun _ _ => .error "boom") "bogus" []).1 (by decide),
   (dispatch_fails_closed (fun _ _ => .error "boom") "notion_read_page" []).2
     "boom" (by decide) rfl⟩

/-- Claim C9: `prepare_system_prompt_for_agentic_chatbot_v4` is a pure
deterministic function of its four inputs — it is a fixed concatenation of
constant template parts with the inputs, with no clock, randomness or other
hidden state, so identical inputs always yield identical output strings. -/
theorem context_assembly_deterministic
    (u₁ s₁ h₁ f₁ u₂ s₂ h₂ f₂ : String)
    (hu : u₁ = u₂) (hs : s₁ = s₂) (hh : h₁ = h₂) (hf : f₁ = f₂) :
    prepare_system_prompt_for_agentic_chatbot_v4 u₁ s₁ h₁ f₁ =
      prepare_system_prompt_for_agentic_chatbot_v4 u₂ s₂ h₂ f₂ := by
  rw [hu, hs, hh, hf]

/-- Witness for C9 at concrete inputs. -/
theorem context_assembly_deterministic_witness :
    prepare_system_prompt_for_agentic_chatbot_v4 "profile" "summary" "history"
        "tools" =
      prepare_system_prompt_for_agentic_chatbot_v4 "profile" "summary"
        "history" "tools" :=
  context_assembly_deterministic "profile" "summary" "history" "tools"
    "profile" "summary" "history" "tools" rfl rfl rfl rfl

/-- Claim C4: when the tool budget is exhausted
(`function_call_count >= max_function_calls`) and the model requests another
tool, the LLM is re-invoked exactly once with the same system prompt and user
message but with tool calling disabled (`withTools = false`, no `functions`
schemas), the text it returns becomes the turn's assistant response (and is
appended to history), and no retry, further dispatch or summary update
happens. -/
theorem budget_exhausted_fallback (cfg : Cfg) (impl : ToolImpl) (msg : String)
    (s : LoopState) (name : String) (args : Args) (t : String)
    (rest : List LLMEvent) (h : cfg.max_function_calls ≤ s.count) :
    chatLoop cfg impl msg s (.functionCall name args :: .content t :: rest) =
      { result := .reply (some t),
        calls := [⟨true, promptOf cfg s msg⟩, ⟨false, promptOf cfg s msg⟩],
        history := [(msg, some t)], summaryUpdates := 0, dispatches := [],
        finalCount := s.count } := by
  simp only [chatLoop, if_pos (Or.inl h)]
  rfl

/-- Witness for C4: `max_function_calls = 0`, so the budget is exhausted at
the first tool request. -/
theorem budget_exhausted_fallback_witness :
    chatLoop ⟨0, "", "", ""⟩ (fun _ _ => .ok (FC_SUCCESS, "r")) "hi"
        initialState [.functionCall "f" [], .content "ok"] =
      { result := .reply (some "ok"),
        calls := [⟨true, promptOf ⟨0, "", "", ""⟩ initialState "hi"⟩,
                  ⟨false, promptOf ⟨0, "", "", ""⟩ initialState "hi"⟩],
        history := [("hi", some "ok")], summaryUpdates := 0, dispatches := [],
        finalCount := 0 } :=
  budget_exhausted_fallback ⟨0, "", "", ""⟩ (fun _ _ => .ok (FC_SUCCESS, "r"))
    "hi" initialState "f" [] "ok" [] (Nat.le_refl 0)

/-! ### Claims C2, C5, C6 about the chaining heuristic and persistence -/

/-- Shared lemma: after a successful tool call whose
`(function_name, user_message)` matches no continuation pattern, the cascade
sets `chat_state = "finished"`. -/
lemma stepSection_finished_of_no_match (s : LoopState) (msg : String)
    (h1 : s.fcState = some FC_SUCCESS)
    (h2 : chainingGuidance s.fname msg = none) :
    (stepSection s msg).2 = true := by
  unfold stepSection
  rw [h1]
  simp [h2]

/-- Shared lemma: with `chat_state = "finished"` forced by a matched-nothing
success, a subsequent tool request is routed to the fallback completion and
nothing further is dispatched. -/
lemma chatLoop_no_match_no_dispatch (cfg : Cfg) (impl : ToolImpl)
    (msg : String) (s : LoopState) (name : String) (args : Args)
    (rest : List LLMEvent) (h1 : s.fcState = some FC_SUCCESS)
    (h2 : chainingGuidance s.fname msg = none) :
    chatLoop cfg impl msg s (.functionCall name args :: rest) =
      fallbackReturn cfg s msg rest := by
  simp only [chatLoop,
    if_pos (Or.inr (stepSection_finished_of_no_match s msg h1 h2))]

/-- Counterexample to claim C2 as stated: after a successful
`notion_search_content` call for the message "find my page" (which matches no
continuation pattern), the model's next tool request
(`notion_add_paragraph`) is NOT dispatched normally — the heuristic's `else`
branch set `chat_state = "finished"`, so the request is cut off and routed to
the tool-disabled fallback completion: only one dispatch happens and the
third LLM call carries `withTools = false`. -/
theorem chaining_suppresses_continuation_counterexample :
    ((chat ⟨5, "", "", ""⟩ (fun _ _ => .ok (FC_SUCCESS, "found page X"))
        "find my page"
        [.functionCall "notion_search_content" [("query", "x")],
         .functionCall "notion_add_paragraph" [("page_identifier", "x")],
         .content "done"]).dispatches.map fun d => d.name) =
      ["notion_search_content"] ∧
    ((chat ⟨5, "", "", ""⟩ (fun _ _ => .ok (FC_SUCCESS, "found page X"))
        "find my page"
        [.functionCall "notion_search_content" [("query", "x")],
         .functionCall "notion_add_paragraph" [("page_identifier", "x")],
         .content "done"]).calls.map fun c => c.withTools) =
      [true, true, false] ∧
    (chat ⟨5, "", "", ""⟩ (fun _ _ => .ok (FC_SUCCESS, "found page X"))
        "find my page"
        [.functionCall "notion_search_content" [("query", "x")],
         .functionCall "notion_add_paragraph" [("page_identifier", "x")],
         .content "done"]).result = .reply (some "done") :=
  ⟨rfl, rfl, rfl⟩

/-- Claim C2 amended: the chaining heuristic itself is total and, when no
continuation pattern matches after a successfully executed tool, it does NOT
leave the decision to the model — it marks the turn finished, so a subsequent
tool request from the model is never dispatched: the turn is closed through
the fallback completion (continuation is both forced and suppressed by this
component). -/
theorem chaining_no_match_suppresses_dispatch (cfg : Cfg) (impl : ToolImpl)
    (msg : String) (s : LoopState) (name : String) (args : Args)
    (rest : List LLMEvent) (h1 : s.fcState = some FC_SUCCESS)
    (h2 : chainingGuidance s.fname msg = none) :
    (chatLoop cfg impl msg s (.functionCall name args :: rest)).dispatches
      = [] := by
  rw [chatLoop_no_match_no_dispatch cfg impl msg s name args rest h1 h2]
  exact fallbackReturn_dispatches cfg s msg rest

/-- Witness for the amended C2 at a concrete post-success state. -/
theorem chaining_no_match_suppresses_dispatch_witness :
    (chatLoop ⟨5, "", "", ""⟩ (fun _ _ => .ok (FC_SUCCESS, "r"))
        "find my page"
        ⟨some FC_SUCCESS, "notion_search_content", [("query", "x")], "r", "",
          false, 1⟩
        [.functionCall "notion_add_paragraph" [], .content "done"]).dispatches
      = [] :=
  chaining_no_match_suppresses_dispatch ⟨5, "", "", ""⟩
    (fun _ _ => .ok (FC_SUCCESS, "r")) "find my page"
    ⟨some FC_SUCCESS, "notion_search_content", [("query", "x")], "r", "",
      false, 1⟩
    "notion_add_paragraph" [] [.content "done"] rfl (by decide)

/-- Counterexample to claim C5 as stated: a turn that reaches FINISHED
through the fallback path with the non-error assistant response `"hi"`
appends the pair to the chat history but performs NO summarization check
(`update_chat_summary` is only called on the plain-text path). -/
theorem fallback_skips_summary_counterexample :
    (chat ⟨0, "", "", ""⟩ (fun _ _ => .ok (FC_SUCCESS, "r")) "m"
        [.functionCall "f" [], .content "hi"]).result = .reply (some "hi") ∧
    (chat ⟨0, "", "", ""⟩ (fun _ _ => .ok (FC_SUCCESS, "r")) "m"
        [.functionCall "f" [], .content "hi"]).history = [("m", some "hi")] ∧
    (chat ⟨0, "", "", ""⟩ (fun _ _ => .ok (FC_SUCCESS, "r")) "m"
        [.functionCall "f" [], .content "hi"]).summaryUpdates = 0 :=
  ⟨rfl, rfl, rfl⟩

/-- Claim C5 amended: on the plain-text path the turn appends the
`(user_message, assistant_response)` pair to the chat history AND triggers
the summarization check; on the fallback path the pair is appended but the
summarization check is NOT triggered. -/
theorem persistence_on_finished :
    (∀ (cfg : Cfg) (impl : ToolImpl) (msg : String) (s : LoopState)
        (t : String) (rest : List LLMEvent),
      (chatLoop cfg impl msg s (.content t :: rest)).history
          = [(msg, some t)] ∧
      (chatLoop cfg impl msg s (.content t :: rest)).summaryUpdates = 1) ∧
    (∀ (cfg : Cfg) (impl : ToolImpl) (msg : String) (s : LoopState)
        (name : String) (args : Args) (t : String) (rest : List LLMEvent),
      cfg.max_function_calls ≤ s.count →
      (chatLoop cfg impl msg s
          (.functionCall name args :: .content t :: rest)).history
          = [(msg, some t)] ∧
      (chatLoop cfg impl msg s
          (.functionCall name args :: .content t :: rest)).summaryUpdates
          = 0) := by
  constructor
  · intro cfg impl msg s t rest
    exact ⟨rfl, rfl⟩
  · intro cfg impl msg s name args t rest h
    simp only [chatLoop, if_pos (Or.inl h)]
    exact ⟨rfl, rfl⟩

/-- Witness for the amended C5: both conjuncts at concrete inputs. -/
theorem persistence_on_finished_witness :
    ((chatLoop ⟨3, "", "", ""⟩ (fun _ _ => .ok (FC_SUCCESS, "r")) "m"
        initialState [.content "hi"]).history = [("m", some "hi")] ∧
      (chatLoop ⟨3, "", "", ""⟩ (fun _ _ => .ok (FC_SUCCESS, "r")) "m"
        initialState [.content "hi"]).summaryUpdates = 1) ∧
    ((chatLoop ⟨0, "", "", ""⟩ (fun _ _ => .ok (FC_SUCCESS, "r")) "m"
        initialState [.functionCall "f" [], .content "hi"]).history
        = [("m", some "hi")] ∧
      (chatLoop ⟨0, "", "", ""⟩ (fun _ _ => .ok (FC_SUCCESS, "r")) "m"
        initialState [.functionCall "f" [], .content "hi"]).summaryUpdates
        = 0) :=
  ⟨persistence_on_finished.1 ⟨3, "", "", ""⟩ (fun _ _ => .ok (FC_SUCCESS, "r"))
      "m" initialState "hi" [],
   persistence_on_finished.2 ⟨0, "", "", ""⟩ (fun _ _ => .ok (FC_SUCCESS, "r"))
      "m" initialState "f" [] "hi" [] (Nat.le_refl 0)⟩

/-- Shared lemma: the first-iteration dispatch step.  From the initial state
with a positive budget, a tool request is dispatched and the loop continues
in `nextState`. -/
lemma chatLoop_first_dispatch (cfg : Cfg) (impl : ToolImpl) (msg name : String)
    (args : Args) (rest : List LLMEvent) (h : 0 < cfg.max_function_calls) :
    chatLoop cfg impl msg initialState (.functionCall name args :: rest) =
      { result := (chatLoop cfg impl msg
          (nextState cfg initialState msg name args
            (execute_function_call impl name args)) rest).result,
        calls := ⟨true, promptOf cfg initialState msg⟩ ::
          (chatLoop cfg impl msg
            (nextState cfg initialState msg name args
              (execute_function_call impl name args)) rest).calls,
        history := (chatLoop cfg impl msg
          (nextState cfg initialState msg name args
            (execute_function_call impl name args)) rest).history,
        summaryUpdates := (chatLoop cfg impl msg
          (nextState cfg initialState msg name args
            (execute_function_call impl name args)) rest).summaryUpdates,
        dispatches := ⟨name, args, (execute_function_call impl name args).1,
            (execute_function_call impl name args).2, 1⟩ ::
          (chatLoop cfg impl msg
            (nextState cfg initialState msg name args
              (execute_function_call impl name args)) rest).dispatches,
        finalCount := (chatLoop cfg impl msg
          (nextState cfg initialState msg name args
            (execute_function_call impl name args)) rest).finalCount } := by
  have hc : ¬(cfg.max_function_calls ≤ initialState.count ∨
      (stepSection initialState msg).2 = true) := by
    rintro (hle | hfin)
    · have hz : cfg.max_function_calls ≤ 0 := hle
      omega
    · simp [stepSection, initialState] at hfin
  simp only [chatLoop, if_neg hc]
  rfl

/-- Counterexample to claim C6 as stated: for the user message
"find X then update X", a successful `notion_search_content` dispatch does
NOT force continuation — the keyword "update" is only checked after
`notion_read_page`, no pattern matches, the second tool request goes to the
fallback completion, and the turn ends with `tool_call_count = 1`, not 2. -/
theorem find_then_update_counterexample :
    (chat ⟨5, "", "", ""⟩ (fun _ _ => .ok (FC_SUCCESS, "found X"))
        "find X then update X"
        [.functionCall "notion_search_content" [("query", "X")],
         .functionCall "notion_add_paragraph" [("page_identifier", "X")],
         .content "ok"]).finalCount = 1 ∧
    ((chat ⟨5, "", "", ""⟩ (fun _ _ => .ok (FC_SUCCESS, "found X"))
        "find X then update X"
        [.functionCall "notion_search_content" [("query", "X")],
         .functionCall "notion_add_paragraph" [("page_identifier", "X")],
         .content "ok"]).dispatches.map fun d => d.name) =
      ["notion_search_content"] ∧
    (chat ⟨5, "", "", ""⟩ (fun _ _ => .ok (FC_SUCCESS, "found X"))
        "find X then update X"
        [.functionCall "notion_search_content" [("query", "X")],
         .functionCall "notion_add_paragraph" [("page_identifier", "X")],
         .content "ok"]).result = .reply (some "ok") :=
  ⟨rfl, rfl, rfl⟩

/-- Claim C6 amended: for a "find X then update X" turn whose first tool call
is a search returning success, the chaining heuristic does NOT force
continuation (no keyword list for `notion_search_content` contains "update");
the model's second tool request is routed to the tool-disabled fallback
completion, the update is never dispatched, and the turn ends with
`tool_call_count = 1`. -/
theorem find_then_update_single_dispatch (cfg : Cfg) (impl : ToolImpl)
    (args1 args2 : Args) (name2 t : String) (rest : List LLMEvent)
    (h0 : 0 < cfg.max_function_calls)
    (hsearch : (execute_function_call impl "notion_search_content" args1).1
      = FC_SUCCESS) :
    (chat cfg impl "find X then update X"
        (.functionCall "notion_search_content" args1 ::
          .functionCall name2 args2 :: .content t :: rest)).finalCount = 1 ∧
    ((chat cfg impl "find X then update X"
        (.functionCall "notion_search_content" args1 ::
          .functionCall name2 args2 :: .content t :: rest)).dispatches.map
      fun d => d.name) = ["notion_search_content"] ∧
    (chat cfg impl "find X then update X"
        (.functionCall "notion_search_content" args1 ::
          .functionCall name2 args2 :: .content t :: rest)).result
      = .reply (some t) := by
  unfold chat
  rw [chatLoop_first_dispatch cfg impl "find X then update X"
    "notion_search_content" args1 _ h0]
  rw [chatLoop_no_match_no_dispatch cfg impl "find X then update X"
    (nextState cfg initialState "find X then update X"
      "notion_search_content" args1
      (execute_function_call impl "notion_search_content" args1))
    name2 args2 (.content t :: rest)
    (by simp [nextState, hsearch]) (by simp [nextState]; decide)]
  unfold fallbackReturn
  refine ⟨rfl, rfl, rfl⟩

/-- Witness for the amended C6 at concrete inputs. -/
theorem find_then_update_single_dispatch_witness :
    (chat ⟨5, "", "", ""⟩ (fun _ _ => .ok (FC_SUCCESS, "found X"))
        "find X then update X"
        (.functionCall "notion_search_content" [("query", "X")] ::
          .functionCall "notion_add_todo" [] :: .content "done" ::
            [])).finalCount = 1 ∧
    ((chat ⟨5, "", "", ""⟩ (fun _ _ => .ok (FC_SUCCESS, "found X"))
        "find X then update X"
        (.functionCall "notion_search_content" [("query", "X")] ::
          .functionCall "notion_add_todo" [] :: .content "done" ::
            [])).dispatches.map fun d => d.name) =
      ["notion_search_content"] ∧
    (chat ⟨5, "", "", ""⟩ (fun _ _ => .ok (FC_SUCCESS, "found X"))
        "find X then update X"
        (.functionCall "notion_search_content" [("query", "X")] ::
          .functionCall "notion_add_todo" [] :: .content "done" ::
            [])).result = .reply (some "done") :=
  find_then_update_single_dispatch ⟨5, "", "", ""⟩
    (fun _ _ => .ok (FC_SUCCESS, "found X")) [("query", "X")] []
    "notion_add_todo" "done" [] (by decide) (by decide)

/-! ### Claim C8: failed dispatches feed the next context block -/

/-- With budget remaining, the section passed to the prompt assembler after a
failed call is the failure block (no limit overwrite). -/
lemma sectionOf_failed (cfg : Cfg) (s : LoopState) (msg : String)
    (hfc : s.fcState = some FC_FAILED)
    (hcount : s.count < cfg.max_function_calls) :
    sectionOf cfg s msg = failureSection s.fname s.fargs s.fresult := by
  unfold sectionOf stepSection
  rw [if_neg (not_le.mpr hcount), hfc]
  have hne : ¬(FC_FAILED = FC_SUCCESS) := by decide
  simp [hne]

lemma occursIn_argsLines (kv : String × String) (args : Args)
    (h : kv ∈ args) :
    occursIn ("  - " ++ kv.1 ++ ": " ++ kv.2 ++ "\n") (argsLines args) := by
  induction args with
  | nil => cases h
  | cons hd tl ih =>
    rcases List.mem_cons.mp h with rfl | h
    · exact occursIn_append_left (argsLines tl) _ _ (occursIn_refl _)
    · exact occursIn_append_right _ _ _ (ih h)

lemma occursIn_failureSection_name (name d : String) (args : Args) :
    occursIn name (failureSection name args d) := by
  unfold failureSection
  apply occursIn_append_left
  apply occursIn_append_left
  apply occursIn_append_left
  apply occursIn_append_left
  apply occursIn_append_left
  apply occursIn_append_left
  apply occursIn_append_left
  apply occursIn_append_left
  exact occursIn_append_right _ _ _ (occursIn_refl _)

lemma occursIn_failureSection_detail (name d : String) (args : Args) :
    occursIn d (failureSection name args d) := by
  unfold failureSection
  apply occursIn_append_left
  apply occursIn_append_left
  exact occursIn_append_right _ _ _ (occursIn_refl _)

lemma occursIn_failureSection_arg (name d : String) (args : Args)
    (kv : String × String) (h : kv ∈ args) :
    occursIn ("  - " ++ kv.1 ++ ": " ++ kv.2 ++ "\n")
      (failureSection name args d) := by
  unfold failureSection
  apply occursIn_append_left
  apply occursIn_append_left
  apply occursIn_append_left
  apply occursIn_append_left
  apply occursIn_append_left
  apply occursIn_append_left
  exact occursIn_append_right _ _ _ (occursIn_argsLines kv args h)

/-- `prefixCheck` characterised by `take`. -/
lemma prefixCheck_iff_take (p : List Char) :
    ∀ s, prefixCheck p s = true ↔ s.take p.length = p := by
  induction p with
  | nil => intro s; simp [prefixCheck]
  | cons a as ih =>
    intro s
    cases s with
    | nil => simp [prefixCheck]
    | cons b bs =>
      simp only [prefixCheck, Bool.and_eq_true, beq_iff_eq, ih,
        List.length_cons, List.take_succ_cons, List.cons.injEq]
      constructor
      · rintro ⟨rfl, h⟩; exact ⟨rfl, h⟩
      · rintro ⟨rfl, h⟩; exact ⟨rfl, h⟩

/-- `infixCheck` characterised by occurrence positions. -/
lemma infixCheck_iff (p : List Char) :
    ∀ s, infixCheck p s = true ↔ ∃ i, prefixCheck p (s.drop i) = true := by
  intro s
  induction s with
  | nil =>
    constructor
    · intro h; exact ⟨0, h⟩
    · rintro ⟨i, hi⟩; rw [List.drop_nil] at hi; exact hi
  | cons c tl ih =>
    constructor
    · intro h
      simp only [infixCheck, Bool.or_eq_true] at h
      rcases h with h | h
      · exact ⟨0, h⟩
      · obtain ⟨i, hi⟩ := ih.mp h
        exact ⟨i + 1, hi⟩
    · rintro ⟨i, hi⟩
      simp only [infixCheck, Bool.or_eq_true]
      cases i with
      | zero => exact Or.inl hi
      | succ j => exact Or.inr (ih.mpr ⟨j, hi⟩)

/-- Take/drop bookkeeping for occurrences that start inside the left part of
an append: truncating the right part to `p.length - 1` characters does not
change the `p.length`-character window at position `i < a.length`. -/
lemma take_drop_append_eq (p a b : List Char) (hp : p ≠ []) (i : Nat)
    (hi : i < a.length) :
    ((a ++ b.take (p.length - 1)).drop i).take p.length
      = ((a ++ b).drop i).take p.length := by
  have h0 : i - a.length = 0 := by omega
  have hplen : 0 < p.length := List.length_pos.mpr hp
  rw [List.drop_append_eq_append_drop, List.drop_append_eq_append_drop, h0]
  simp only [List.drop_zero]
  rw [List.take_append_eq_append_take, List.take_append_eq_append_take]
  congr 1
  rw [List.take_take]
  congr 1
  rw [List.length_drop]
  exact Nat.min_eq_left (by omega)

/-- Straddle elimination: an occurrence of `p` in `a ++ b` lies either inside
`a` extended by the first `p.length - 1` characters of `b`, or inside `b`. -/
lemma infixCheck_append_elim (p a b : List Char) (hp : p ≠ [])
    (h : infixCheck p (a ++ b) = true) :
    infixCheck p (a ++ b.take (p.length - 1)) = true
      ∨ infixCheck p b = true := by
  rw [infixCheck_iff] at h
  obtain ⟨i, hi⟩ := h
  by_cases hlt : i < a.length
  · left
    rw [infixCheck_iff]
    refine ⟨i, ?_⟩
    rw [prefixCheck_iff_take] at hi ⊢
    rw [take_drop_append_eq p a b hp i hlt]
    exact hi
  · right
    push_neg at hlt
    rw [infixCheck_iff]
    refine ⟨i - a.length, ?_⟩
    rw [List.drop_append_eq_append_drop, List.drop_eq_nil_of_le hlt] at hi
    simpa using hi

/-- Straddle elimination on `String`s. -/
lemma occursIn_append_elim (p a b : String) (hp : p.data ≠ [])
    (h : occursIn p (a ++ b)) :
    occursIn p (a ++ String.mk (b.data.take (p.data.length - 1)))
      ∨ occursIn p b := by
  unfold occursIn at h ⊢
  rw [String.data_append] at h
  rcases infixCheck_append_elim p.data a.data b.data hp h with h' | h'
  · left
    rw [String.data_append]
    exact h'
  · right
    exact h'

/-- Anything occurring in the `function_call_result_section` occurs in the
assembled system prompt. -/
lemma occursIn_promptOf (p : String) (cfg : Cfg) (s : LoopState)
    (msg : String) (h : occursIn p (sectionOf cfg s msg)) :
    occursIn p (promptOf cfg s msg) := by
  unfold promptOf prepare_system_prompt_for_agentic_chatbot_v4
  apply occursIn_append_right
  apply occursIn_append_right
  apply occursIn_append_right
  apply occursIn_append_right
  apply occursIn_append_right
  apply occursIn_append_right
  apply occursIn_append_right
  apply occursIn_append_right
  apply occursIn_append_right
  apply occursIn_append_right
  apply occursIn_append_right
  apply occursIn_append_right
  apply occursIn_append_right
  apply occursIn_append_right
  apply occursIn_append_right
  apply occursIn_append_right
  apply occursIn_append_right
  apply occursIn_append_right
  apply occursIn_append_right
  apply occursIn_append_right
  apply occursIn_append_right
  apply occursIn_append_right
  apply occursIn_append_right
  apply occursIn_append_right
  apply occursIn_append_right
  apply occursIn_append_right
  apply occursIn_append_right
  apply occursIn_append_right
  apply occursIn_append_right
  apply occursIn_append_right
  apply occursIn_append_right
  apply occursIn_append_right
  apply occursIn_append_right
  apply occursIn_append_right
  apply occursIn_append_right
  apply occursIn_append_right
  apply occursIn_append_right
  apply occursIn_append_right
  apply occursIn_append_right
  apply occursIn_append_right
  apply occursIn_append_right
  apply occursIn_append_right
  apply occursIn_append_right
  apply occursIn_append_right
  apply occursIn_append_right
  apply occursIn_append_right
  apply occursIn_append_right
  apply occursIn_append_right
  apply occursIn_append_right
  apply occursIn_append_right
  apply occursIn_append_right
  apply occursIn_append_right
  apply occursIn_append_right
  apply occursIn_append_right
  apply occursIn_append_right
  apply occursIn_append_right
  apply occursIn_append_right
  apply occursIn_append_right
  apply occursIn_append_right
  apply occursIn_append_right
  apply occursIn_append_right
  apply occursIn_append_right
  apply occursIn_append_right
  apply occursIn_append_right
  apply occursIn_append_right
  apply occursIn_append_right
  apply occursIn_append_right
  apply occursIn_append_right
  apply occursIn_append_right
  apply occursIn_append_right
  apply occursIn_append_right
  exact occursIn_append_left _ _ _ h

/-- Claim C8 amended: after a tool dispatch fails with detail `fresult`,
the turn does not terminate on the failure — as long as the budget is not
yet exhausted (`count < max_function_calls`), the very next LLM call's system
prompt contains the failed tool's name, each of its arguments, and the
failure detail, so the model gets a chance to react.  (When the failed
dispatch spent the last budget unit, the failure block is overwritten by the
"Function Call Limit Reached" notice — see the counterexample.)  Only a
failure of the LLM call itself ends the turn with an error. -/
theorem failed_dispatch_feeds_next_context (cfg : Cfg) (impl : ToolImpl)
    (msg : String) (s : LoopState) (e : LLMEvent) (rest : List LLMEvent)
    (hfc : s.fcState = some FC_FAILED)
    (hcount : s.count < cfg.max_function_calls) :
    (∃ tl, (chatLoop cfg impl msg s (e :: rest)).calls =
        ⟨true, promptOf cfg s msg⟩ :: tl) ∧
    occursIn s.fname (promptOf cfg s msg) ∧
    occursIn s.fresult (promptOf cfg s msg) ∧
    ∀ kv ∈ s.fargs, occursIn ("  - " ++ kv.1 ++ ": " ++ kv.2 ++ "\n")
      (promptOf cfg s msg) := by
  have hsec := sectionOf_failed cfg s msg hfc hcount
  refine ⟨?_, ?_, ?_, ?_⟩
  · cases e with
    | content t => exact ⟨_, rfl⟩
    | neither => exact ⟨_, rfl⟩
    | raiseErr m => exact ⟨_, rfl⟩
    | functionCall name args =>
      by_cases hc : cfg.max_function_calls ≤ s.count ∨
          (stepSection s msg).2 = true
      · simp only [chatLoop, if_pos hc]
        unfold fallbackReturn
        cases rest with
        | nil => exact ⟨_, rfl⟩
        | cons fe tl => cases fe <;> exact ⟨_, rfl⟩
      · simp only [chatLoop, if_neg hc]
        exact ⟨_, rfl⟩
  · exact occursIn_promptOf _ cfg s msg
      (hsec ▸ occursIn_failureSection_name s.fname s.fresult s.fargs)
  · exact occursIn_promptOf _ cfg s msg
      (hsec ▸ occursIn_failureSection_detail s.fname s.fresult s.fargs)
  · intro kv hkv
    exact occursIn_promptOf _ cfg s msg
      (hsec ▸ occursIn_failureSection_arg s.fname s.fresult s.fargs kv hkv)

/-- Witness for the amended C8 at a concrete post-failure state with budget
remaining. -/
theorem failed_dispatch_feeds_next_context_witness :
    (∃ tl, (chatLoop ⟨3, "", "", ""⟩ (fun _ _ => .ok (FC_SUCCESS, "r")) "hello"
        ⟨some FC_FAILED, "notion_read_page", [("page_identifier", "X")],
          "not found", "", false, 1⟩ [.content "ok"]).calls =
        ⟨true, promptOf ⟨3, "", "", ""⟩
          ⟨some FC_FAILED, "notion_read_page", [("page_identifier", "X")],
            "not found", "", false, 1⟩ "hello"⟩ :: tl) ∧
    occursIn "notion_read_page" (promptOf ⟨3, "", "", ""⟩
      ⟨some FC_FAILED, "notion_read_page", [("page_identifier", "X")],
        "not found", "", false, 1⟩ "hello") ∧
    occursIn "not found" (promptOf ⟨3, "", "", ""⟩
      ⟨some FC_FAILED, "notion_read_page", [("page_identifier", "X")],
        "not found", "", false, 1⟩ "hello") ∧
    ∀ kv ∈ ([("page_identifier", "X")] : Args),
      occursIn ("  - " ++ kv.1 ++ ": " ++ kv.2 ++ "\n")
        (promptOf ⟨3, "", "", ""⟩
          ⟨some FC_FAILED, "notion_read_page", [("page_identifier", "X")],
            "not found", "", false, 1⟩ "hello") :=
  failed_dispatch_feeds_next_context ⟨3, "", "", ""⟩
    (fun _ _ => .ok (FC_SUCCESS, "r")) "hello"
    ⟨some FC_FAILED, "notion_read_page", [("page_identifier", "X")],
      "not found", "", false, 1⟩ (.content "ok") [] rfl (by decide)

set_option maxRecDepth 4096 in
/-- Counterexample to claim C8 as stated: with `max_function_calls = 1`, the
single allowed dispatch fails with detail "not found"; the next iteration
overwrites the failure block with the "Function Call Limit Reached" notice,
so the context block assembled for the next LLM call (the second prompt of
the turn) does not contain the failure detail anywhere. -/
theorem failed_dispatch_context_counterexample :
    ((chat ⟨1, "", "", ""⟩ (fun _ _ => .ok (FC_FAILED, "not found")) "hello"
        [.functionCall "notion_read_page" [("page_identifier", "X")],
         .content "ok"]).dispatches.map fun d => (d.state, d.result)) =
      [(FC_FAILED, "not found")] ∧
    ((chat ⟨1, "", "", ""⟩ (fun _ _ => .ok (FC_FAILED, "not found")) "hello"
        [.functionCall "notion_read_page" [("page_identifier", "X")],
         .content "ok"]).calls.map fun c => c.prompt) =
      [prepare_system_prompt_for_agentic_chatbot_v4 "" "" "" "",
       prepare_system_prompt_for_agentic_chatbot_v4 "" "" "" limitSection] ∧
    ¬ occursIn "not found"
      (prepare_system_prompt_for_agentic_chatbot_v4 "" "" "" limitSection) := by
  refine ⟨rfl, rfl, ?_⟩
  intro hcontra
  have hp : ("not found" : String).data ≠ [] := by decide
  rcases occursIn_append_elim _ _ _ hp hcontra with h | h
  · exact absurd h (by decide)
  rcases occursIn_append_elim _ _ _ hp h with h | h
  · exact absurd h (by decide)
  rcases occursIn_append_elim _ _ _ hp h with h | h
  · exact absurd h (by decide)
  rcases occursIn_append_elim _ _ _ hp h with h | h
  · exact absurd h (by decide)
  rcases occursIn_append_elim _ _ _ hp h with h | h
  · exact absurd h (by decide)
  rcases occursIn_append_elim _ _ _ hp h with h | h
  · exact absurd h (by decide)
  rcases occursIn_append_elim _ _ _ hp h with h | h
  · exact absurd h (by decide)
  rcases occursIn_append_elim _ _ _ hp h with h | h
  · exact absurd h (by decide)
  rcases occursIn_append_elim _ _ _ hp h with h | h
  · exact absurd h (by decide)
  rcases occursIn_append_elim _ _ _ hp h with h | h
  · exact absurd h (by decide)
  rcases occursIn_append_elim _ _ _ hp h with h | h
  · exact absurd h (by decide)
  rcases occursIn_append_elim _ _ _ hp h with h | h
  · exact absurd h (by decide)
  rcases occursIn_append_elim _ _ _ hp h with h | h
  · exact absurd h (by decide)
  rcases occursIn_append_elim _ _ _ hp h with h | h
  · exact absurd h (by decide)
  rcases occursIn_append_elim _ _ _ hp h with h | h
  · exact absurd h (by decide)
  rcases occursIn_append_elim _ _ _ hp h with h | h
  · exact absurd h (by decide)
  rcases occursIn_append_elim _ _ _ hp h with h | h
  · exact absurd h (by decide)
  rcases occursIn_append_elim _ _ _ hp h with h | h
  · exact absurd h (by decide)
  rcases occursIn_append_elim _ _ _ hp h with h | h
  · exact absurd h (by decide)
  rcases occursIn_append_elim _ _ _ hp h with h | h
  · exact absurd h (by decide)
  rcases occursIn_append_elim _ _ _ hp h with h | h
  · exact absurd h (by decide)
  rcases occursIn_append_elim _ _ _ hp h with h | h
  · exact absurd h (by decide)
  rcases occursIn_append_elim _ _ _ hp h with h | h
  · exact absurd h (by decide)
  rcases occursIn_append_elim _ _ _ hp h with h | h
  · exact absurd h (by decide)
  rcases occursIn_append_elim _ _ _ hp h with h | h
  · exact absurd h (by decide)
  rcases occursIn_append_elim _ _ _ hp h with h | h
  · exact absurd h (by decide)
  rcases occursIn_append_elim _ _ _ hp h with h | h
  · exact absurd h (by decide)
  rcases occursIn_append_elim _ _ _ hp h with h | h
  · exact absurd h (by decide)
  rcases occursIn_append_elim _ _ _ hp h with h | h
  · exact absurd h (by decide)
  rcases occursIn_append_elim _ _ _ hp h with h | h
  · exact absurd h (by decide)
  rcases occursIn_append_elim _ _ _ hp h with h | h
  · exact absurd h (by decide)
  rcases occursIn_append_elim _ _ _ hp h with h | h
  · exact absurd h (by decide)
  rcases occursIn_append_elim _ _ _ hp h with h | h
  · exact absurd h (by decide)
  rcases occursIn_append_elim _ _ _ hp h with h | h
  · exact absurd h (by decide)
  rcases occursIn_append_elim _ _ _ hp h with h | h
  · exact absurd h (by decide)
  rcases occursIn_append_elim _ _ _ hp h with h | h
  · exact absurd h (by decide)
  rcases occursIn_append_elim _ _ _ hp h with h | h
  · exact absurd h (by decide)
  rcases occursIn_append_elim _ _ _ hp h with h | h
  · exact absurd h (by decide)
  rcases occursIn_append_elim _ _ _ hp h with h | h
  · exact absurd h (by decide)
  rcases occursIn_append_elim _ _ _ hp h with h | h
  · exact absurd h (by decide)
  rcases occursIn_append_elim _ _ _ hp h with h | h
  · exact absurd h (by decide)
  rcases occursIn_append_elim _ _ _ hp h with h | h
  · exact absurd h (by decide)
  rcases occursIn_append_elim _ _ _ hp h with h | h
  · exact absurd h (by decide)
  rcases occursIn_append_elim _ _ _ hp h with h | h
  · exact absurd h (by decide)
  rcases occursIn_append_elim _ _ _ hp h with h | h
  · exact absurd h (by decide)
  rcases occursIn_append_elim _ _ _ hp h with h | h
  · exact absurd h (by decide)
  rcases occursIn_append_elim _ _ _ hp h with h | h
  · exact absurd h (by decide)
  rcases occursIn_append_elim _ _ _ hp h with h | h
  · exact absurd h (by decide)
  rcases occursIn_append_elim _ _ _ hp h with h | h
  · exact absurd h (by decide)
  rcases occursIn_append_elim _ _ _ hp h with h | h
  · exact absurd h (by decide)
  rcases occursIn_append_elim _ _ _ hp h with h | h
  · exact absurd h (by decide)
  rcases occursIn_append_elim _ _ _ hp h with h | h
  · exact absurd h (by decide)
  rcases occursIn_append_elim _ _ _ hp h with h | h
  · exact absurd h (by decide)
  rcases occursIn_append_elim _ _ _ hp h with h | h
  · exact absurd h (by decide)
  rcases occursIn_append_elim _ _ _ hp h with h | h
  · exact absurd h (by decide)
  rcases occursIn_append_elim _ _ _ hp h with h | h
  · exact absurd h (by decide)
  rcases occursIn_append_elim _ _ _ hp h with h | h
  · exact absurd h (by decide)
  rcases occursIn_append_elim _ _ _ hp h with h | h
  · exact absurd h (by decide)
  rcases occursIn_append_elim _ _ _ hp h with h | h
  · exact absurd h (by decide)
  rcases occursIn_append_elim _ _ _ hp h with h | h
  · exact absurd h (by decide)
  rcases occursIn_append_elim _ _ _ hp h with h | h
  · exact absurd h (by decide)
  rcases occursIn_append_elim _ _ _ hp h with h | h
  · exact absurd h (by decide)
  rcases occursIn_append_elim _ _ _ hp h with h | h
  · exact absurd h (by decide)
  rcases occursIn_append_elim _ _ _ hp h with h | h
  · exact absurd h (by decide)
  rcases occursIn_append_elim _ _ _ hp h with h | h
  · exact absurd h (by decide)
  rcases occursIn_append_elim _ _ _ hp h with h | h
  · exact absurd h (by decide)
  rcases occursIn_append_elim _ _ _ hp h with h | h
  · exact absurd h (by decide)
  rcases occursIn_append_elim _ _ _ hp h with h | h
  · exact absurd h (by decide)
  rcases occursIn_append_elim _ _ _ hp h with h | h
  · exact absurd h (by decide)
  rcases occursIn_append_elim _ _ _ hp h with h | h
  · exact absurd h (by decide)
  rcases occursIn_append_elim _ _ _ hp h with h | h
  · exact absurd h (by decide)
  rcases occursIn_append_elim _ _ _ hp h with h | h
  · exact absurd h (by decide)
  exact absurd h (by decide)

/-- Witness for C7 at a concrete raising LLM call. -/
theorem chat_llm_error_not_persisted_witness :
    (chat ⟨3, "", "", ""⟩ (fun _ _ => .ok (FC_SUCCESS, "r")) "hi"
        [.raiseErr "boom"]).history = [] ∧
    (chat ⟨3, "", "", ""⟩ (fun _ _ => .ok (FC_SUCCESS, "r")) "hi"
        [.raiseErr "boom"]).summaryUpdates = 0 :=
  chat_llm_error_not_persisted ⟨3, "", "", ""⟩
    (fun _ _ => .ok (FC_SUCCESS, "r")) "hi" [.raiseErr "boom"] "boom" rfl

/-! ### Claim C10: `NotionUtils.split_long_content` -/

lemma length_dropWhile_le (p : Char → Bool) (l : List Char) :
    (l.dropWhile p).length ≤ l.length := by
  induction l with
  | nil => simp
  | cons a l ih =>
    rw [List.dropWhile_cons]
    split
    · exact Nat.le_succ_of_le ih
    · exact Nat.le_refl _

lemma pyStrip_length_le (s : List Char) : (pyStrip s).length ≤ s.length := by
  unfold pyStrip
  have h1 := length_dropWhile_le pySpace s
  have h2 := length_dropWhile_le pySpace (s.dropWhile pySpace).reverse
  simp only [List.length_reverse] at h1 h2 ⊢
  omega

/-- `rfind` returns a position strictly below the length (or `-1`). -/
lemma rfind_lt_length (s p : List Char) : rfind s p < (s.length : Int) := by
  unfold rfind
  have key : ∀ (l : List Nat) (acc : Int),
      (∀ i ∈ l, (i : Int) < (s.length : Int)) → acc < (s.length : Int) →
      l.foldl (fun acc i => if matchAt s p i then (i : Int) else acc) acc
        < (s.length : Int) := by
    intro l
    induction l with
    | nil => intro acc _ h; exact h
    | cons x xs ih =>
      intro acc hmem hacc
      rw [List.foldl_cons]
      apply ih
      · intro i hi; exact hmem i (List.mem_cons_of_mem x hi)
      · by_cases hx : matchAt s p x
        · simp only [hx, if_true]; exact hmem x (List.mem_cons_self x xs)
        · simp only [hx, if_false]; exact hacc
  apply key
  · intro i hi
    exact_mod_cast List.mem_range.mp hi
  · omega

/-- Bounds for the sentence-break branch, with the `max` of the four `rfind`
results abstracted as `L`. -/
lemma sentence_branch_bounds (maxLen : Nat) (rem : List Char) (L : Int)
    (hs : 10 * L > 7 * (maxLen : Int)) (hls : L < (maxLen : Int))
    (h2 : 2 ≤ maxLen) (hlen : maxLen < rem.length) :
    (pyStrip (rem.take (L.toNat + 1))).length ≤ maxLen ∧
    (pyStrip (rem.drop (L.toNat + 1))).length < rem.length := by
  have hstrip1 := pyStrip_length_le (rem.take (L.toNat + 1))
  have htake := List.length_take_le (L.toNat + 1) rem
  have hstrip2 := pyStrip_length_le (rem.drop (L.toNat + 1))
  have hdrop := List.length_drop (L.toNat + 1) rem
  constructor <;> omega

/-- Bounds for the word-break branch, with the space `rfind` result
abstracted as `W`. -/
lemma word_branch_bounds (maxLen : Nat) (rem : List Char) (W : Int)
    (hw : 10 * W > 8 * (maxLen : Int)) (hls : W < (maxLen : Int))
    (h2 : 2 ≤ maxLen) (hlen : maxLen < rem.length) :
    (pyStrip (rem.take W.toNat)).length ≤ maxLen ∧
    (pyStrip (rem.drop W.toNat)).length < rem.length := by
  have hstrip1 := pyStrip_length_le (rem.take W.toNat)
  have htake := List.length_take_le W.toNat rem
  have hstrip2 := pyStrip_length_le (rem.drop W.toNat)
  have hdrop := List.length_drop W.toNat rem
  constructor <;> omega

/-- Bounds for the hard-break branch. -/
lemma hard_branch_bounds (maxLen : Nat) (rem : List Char)
    (h2 : 2 ≤ maxLen) (hlen : maxLen < rem.length) :
    (pyStrip (rem.take maxLen)).length ≤ maxLen ∧
    (rem.drop maxLen).length < rem.length := by
  have hstrip := pyStrip_length_le (rem.take maxLen)
  have htake := List.length_take_le maxLen rem
  have hdrop := List.length_drop maxLen rem
  constructor <;> omega

/-- One loop iteration on over-long remaining content: the appended chunk is
within the limit and the remaining content strictly shrinks. -/
lemma splitStep_spec (maxLen : Nat) (rem : List Char) (h2 : 2 ≤ maxLen)
    (hlen : maxLen < rem.length) :
    (splitStep maxLen rem).1.length ≤ maxLen ∧
    (splitStep maxLen rem).2.length < rem.length := by
  have hchunk : (rem.take maxLen).length = maxLen := by
    rw [List.length_take]; exact Nat.min_eq_left (le_of_lt hlen)
  have hr1 := rfind_lt_length (rem.take maxLen) ['.', ' ']
  have hr2 := rfind_lt_length (rem.take maxLen) ['!', ' ']
  have hr3 := rfind_lt_length (rem.take maxLen) ['?', ' ']
  have hr4 := rfind_lt_length (rem.take maxLen) ['\n']
  have hr5 := rfind_lt_length (rem.take maxLen) [' ']
  rw [hchunk] at hr1 hr2 hr3 hr4 hr5
  have hls : max (max (max (rfind (rem.take maxLen) ['.', ' '])
      (rfind (rem.take maxLen) ['!', ' ']))
      (rfind (rem.take maxLen) ['?', ' ']))
      (rfind (rem.take maxLen) ['\n']) < (maxLen : Int) :=
    max_lt (max_lt (max_lt hr1 hr2) hr3) hr4
  unfold splitStep
  dsimp only
  split_ifs with hs hw
  · exact sentence_branch_bounds maxLen rem _ hs hls h2 hlen
  · exact word_branch_bounds maxLen rem _ hw hr5 h2 hlen
  · exact hard_branch_bounds maxLen rem h2 hlen

/-- The fuelled loop terminates within `rem.length` steps and every chunk it
collects is within the limit. -/
lemma splitLoop_sound (maxLen : Nat) (h2 : 2 ≤ maxLen) :
    ∀ (fuel : Nat) (rem : List Char), rem.length ≤ fuel →
      ∃ l, splitLoop maxLen fuel rem = some l ∧ ∀ c ∈ l, c.length ≤ maxLen := by
  intro fuel
  induction fuel with
  | zero =>
    intro rem h
    have : rem = [] := List.eq_nil_of_length_eq_zero (Nat.le_zero.mp h)
    subst this
    exact ⟨[], rfl, by simp⟩
  | succ n ih =>
    intro rem h
    cases rem with
    | nil => exact ⟨[], rfl, by simp⟩
    | cons c cs =>
      by_cases hle : (c :: cs).length ≤ maxLen
      · refine ⟨[pyStrip (c :: cs)], ?_, ?_⟩
        · simp only [splitLoop]
          rw [if_pos hle]
        intro x hx
        rw [List.mem_singleton] at hx
        subst hx
        exact le_trans (pyStrip_length_le _) hle
      · push_neg at hle
        obtain ⟨hchunk, hshrink⟩ := splitStep_spec maxLen (c :: cs) h2 hle
        obtain ⟨l, hl, hall⟩ := ih (splitStep maxLen (c :: cs)).2
          (by omega)
        refine ⟨(splitStep maxLen (c :: cs)).1 :: l, ?_, ?_⟩
        · simp only [splitLoop, if_neg (not_le.mpr hle), hl]
        · intro x hx
          rcases List.mem_cons.mp hx with rfl | hx
          · exact hchunk
          · exact hall x hx

/-- Claim C10 amended: for every content and every `max_length ≥ 2`,
`split_long_content` terminates and returns a list of chunks in which every
chunk has length at most `max_length`, and — provided the content is
non-empty — every chunk is non-empty.  (On the empty content the early
return produces `[""]`, which contains an empty chunk; see the
counterexample.) -/
theorem split_long_content_bounded (content : List Char) (maxLen : Nat)
    (h2 : 2 ≤ maxLen) :
    ∃ l, split_long_content content maxLen = some l ∧
      (∀ c ∈ l, c.length ≤ maxLen) ∧
      (content ≠ [] → ∀ c ∈ l, c ≠ []) := by
  unfold split_long_content
  by_cases h : content.length ≤ maxLen
  · refine ⟨[content], by simp [h], ?_, ?_⟩
    · intro c hc
      rw [List.mem_singleton] at hc
      subst hc
      exact h
    · intro hne c hc
      rw [List.mem_singleton] at hc
      subst hc
      exact hne
  · push_neg at h
    obtain ⟨l, hl, hall⟩ :=
      splitLoop_sound maxLen h2 content.length content le_rfl
    refine ⟨l.filter (fun c => !c.isEmpty), ?_, ?_, ?_⟩
    · simp [if_neg (not_le.mpr h), hl]
    · intro c hc
      exact hall c (List.mem_of_mem_filter hc)
    · intro _ c hc
      have hne := (List.mem_filter.mp hc).2
      simp only [Bool.not_eq_true'] at hne
      intro hceq
      subst hceq
      simp [List.isEmpty] at hne
  
/-- Witness for the amended C10 on content longer than the limit (the loop
path is exercised). -/
theorem split_long_content_bounded_witness :
    ∃ l, split_long_content ("ab cd ef".data) 3 = some l ∧
      (∀ c ∈ l, c.length ≤ 3) ∧
      (("ab cd ef".data) ≠ [] → ∀ c ∈ l, c ≠ []) :=
  split_long_content_bounded ("ab cd ef".data) 3 (by decide)

/-- Counterexample to claim C10 as stated: on the empty content the
`len(content) <= max_length` early return yields `[""]` — a chunk list
containing an empty chunk, so "every chunk is non-empty" fails. -/
theorem split_long_content_empty_chunk_counterexample :
    split_long_content ([] : List Char) 2 = some [([] : List Char)] ∧
    ¬ (∀ l, split_long_content ([] : List Char) 2 = some l →
        ∀ c ∈ l, c ≠ []) := by
  refine ⟨rfl, fun h => ?_⟩
  exact h [[]] rfl [] (List.mem_singleton.mpr rfl) rfl

end AgenticMemory







